import Mathlib

/-!
Shallow embedding of the sync orchestration engine of the youtube-archiver
backend (`backend/app/tasks/task_manager.py`, `backend/app/tasks/scheduler.py`,
`backend/app/services/video_downloader.py`, `backend/app/models/sync.py`).

The asyncio/SQLAlchemy effects are modelled by explicit state passing:

* the database (`sync_jobs`, `error_logs`, `download_queue`, `channels`,
  `videos.is_downloaded`) is a record of lists;
* `TaskManager`'s in-memory fields (`current_task`, `sync_progress`,
  `cancel_requested`) are a record; `current_task and not current_task.done()`
  is the Boolean `active`;
* one process lifetime is a trace of operations (`Op`) folded over the state:
  a `start_sync` call, the startup `check_and_resume_sync` call, the task
  finishing normally, `stop_sync`, or the task failing with an
  orchestration-level error;
* the body of `_run_sync` (enumeration, the per-item loop with its
  cancellation checks and per-item error handling, and the progress writes) is
  the pure function `runSync`, with the external world (page contents,
  per-item success, the value of `cancel_requested` at each check point)
  supplied as data.

On cancellation semantics: `stop_sync` (lines 185-205) sets
`cancel_requested`, then synchronously calls `current_task.cancel()` and then
writes status `cancelled` for the active job.  `Task.cancel` makes the task
resume with `CancelledError` at the await it is suspended on;
`_run_sync` re-raises it (lines 294-296) without any further job write, so a
cancelled task never reaches the completion write at lines 264-273.  The flag
is never set without the accompanying `cancel()` (its only setters are
`stop_sync` and `shutdown`).  The trace machine therefore models `stop_sync`
as: write `cancelled` for the progress job, clear the progress snapshot and
the task slot.
-/

/-- SyncJob.status values ('pending', 'running', 'completed', 'failed',
'cancelled'), from `models/sync.py` line 24. -/
inductive JobStatus where
  | pending
  | running
  | completed
  | failed
  | cancelled
deriving DecidableEq, Repr

/-- A `sync_jobs` row (`models/sync.py` lines 19-33).  Timestamp columns are
omitted; `resume_from` is kept to make visible that no code ever reads it. -/
structure SyncJob where
  id : Nat
  jobType : String
  timeFilter : String
  channelId : Option Nat
  status : JobStatus
  totalItems : Nat
  processedItems : Nat
  failedItems : Nat
  errorMessage : Option String
  resumeFrom : Option String
deriving DecidableEq, Repr

/-- An `error_logs` row (`models/sync.py` lines 55-64), as appended by
`TaskManager._log_error`. -/
structure ErrorLog where
  syncJobId : Option Nat
  videoId : Option Nat
  errorMessage : String
deriving DecidableEq, Repr

/-- A `download_queue` row (`models/sync.py` lines 36-52). -/
structure QueueItem where
  id : Nat
  videoId : Nat
  syncJobId : Option Nat
  status : String
  progress : Rat
  retryCount : Nat
  maxRetries : Nat
  errorMessage : Option String
deriving DecidableEq, Repr

/-- The slice of the database the orchestrator trace touches: job rows, error
rows, the set of existing channel ids, and the id the next inserted job row
receives. -/
structure DB where
  jobs : List SyncJob
  errors : List ErrorLog
  channels : List Nat
  nextJobId : Nat
deriving DecidableEq, Repr

/-- `TaskStatus` (`task_manager.py` lines 22-25). -/
inductive TaskStatus where
  | idle
  | syncing
  | downloading
deriving DecidableEq, Repr

/-- `SyncProgress` (`task_manager.py` lines 28-37). -/
structure SyncProgress where
  jobId : Option Nat := none
  status : TaskStatus := .idle
  jobType : Option String := none
  channelId : Option Nat := none
  totalItems : Nat := 0
  processedItems : Nat := 0
  currentItem : Option String := none
  error : Option String := none
deriving DecidableEq, Repr

/-- The in-memory `TaskManager` state plus the database it talks to.
`active` is `current_task is not None and not current_task.done()`. -/
structure TaskManagerState where
  active : Bool
  syncProgress : SyncProgress
  cancelRequested : Bool
  db : DB
deriving DecidableEq, Repr

/-- Look a job row up by id (`select(SyncJob).where(SyncJob.id == ...)`). -/
def findJob (db : DB) (jid : Nat) : Option SyncJob :=
  db.jobs.find? (fun j => decide (j.id = jid))

/-- The job ids present in the database. -/
def jobIds (db : DB) : List Nat :=
  db.jobs.map (fun j => j.id)

/-- The job rows currently in `running` status. -/
def runningJobs (db : DB) : List SyncJob :=
  db.jobs.filter (fun j => decide (j.status = .running))

/-- An `update(SyncJob).where(SyncJob.id == jid).values(...)` statement:
apply `f` to every row whose id matches. -/
def mapJob (db : DB) (jid : Nat) (f : SyncJob → SyncJob) : DB :=
  { db with jobs := db.jobs.map (fun j => if j.id = jid then f j else j) }

/-- Set the status of the job row with the given id
(`update(SyncJob).where(SyncJob.id == jid).values(status=...)`). -/
def setJobStatus (db : DB) (jid : Nat) (st : JobStatus) : DB :=
  mapJob db jid (fun j => { j with status := st })

/-- Set status and error message of the job row with the given id, as the
orchestration-failure handler does (`task_manager.py` lines 299-309). -/
def setJobFailed (db : DB) (jid : Nat) (msg : String) : DB :=
  mapJob db jid (fun j => { j with status := .failed, errorMessage := some msg })

/-- `TaskManager.start_sync` (`task_manager.py` lines 126-183).  Returns the
state after the call together with the raised exception message or the new
job id.  The two guards (lines 134-138) run before any other effect; the
`cancel_requested` reset (line 140) runs after them; the resume branch (lines
143-150) creates no row; the fresh branch verifies the channel and inserts a
`running` job row; finally the progress snapshot is replaced and the task is
launched (`active := true`). -/
def startSync (s : TaskManagerState) (jobType timeFilter : String)
    (channelId resumeJobId : Option Nat) : TaskManagerState × Except String Nat :=
  if s.active then
    (s, Except.error "A sync is already in progress")
  else if channelId = none ∧ resumeJobId = none then
    (s, Except.error "channel_id is required")
  else
    let s1 := { s with cancelRequested := false }
    match resumeJobId with
    | some rid =>
      match findJob s1.db rid with
      | none => (s1, Except.error "Job not found")
      | some job =>
        let prog : SyncProgress :=
          { jobId := some rid, status := .syncing, jobType := some jobType,
            channelId := job.channelId }
        ({ s1 with syncProgress := prog, active := true }, Except.ok rid)
    | none =>
      match channelId with
      | none => (s1, Except.error "channel_id is required")
      | some cid =>
        if cid ∈ s1.db.channels then
          let jid := s1.db.nextJobId
          let job : SyncJob :=
            { id := jid, jobType := jobType, timeFilter := timeFilter,
              channelId := some cid, status := .running, totalItems := 0,
              processedItems := 0, failedItems := 0, errorMessage := none,
              resumeFrom := none }
          let db' := { s1.db with jobs := s1.db.jobs ++ [job], nextJobId := jid + 1 }
          let prog : SyncProgress :=
            { jobId := some jid, status := .syncing, jobType := some jobType,
              channelId := some cid }
          ({ s1 with db := db', syncProgress := prog, active := true }, Except.ok jid)
        else (s1, Except.error "Channel not found")

/-- `TaskManager.stop_sync` (`task_manager.py` lines 185-205).  A no-op when
no task is active; otherwise it sets the cancel flag, cancels the task (which
therefore performs no further job write, see the header comment), writes
status `cancelled` for the progress job, and resets the progress snapshot. -/
def stopSync (s : TaskManagerState) : TaskManagerState :=
  if s.active then
    let db' :=
      match s.syncProgress.jobId with
      | some jid => setJobStatus s.db jid .cancelled
      | none => s.db
    { s with cancelRequested := true, db := db', syncProgress := {}, active := false }
  else s

/-- The `_run_sync` task completing its phase sequence: the completion write
(`task_manager.py` lines 264-273) marks the progress job `completed`, and the
`finally` block resets the progress snapshot; the finished task makes
`current_task.done()` true. -/
def finishRun (s : TaskManagerState) : TaskManagerState :=
  if s.active then
    let db' :=
      match s.syncProgress.jobId with
      | some jid => setJobStatus s.db jid .completed
      | none => s.db
    { s with db := db', syncProgress := {}, active := false }
  else s

/-- The `_run_sync` task hitting an orchestration-level fault: the handler
(`task_manager.py` lines 297-309) marks the progress job `failed` with the
error message, and the `finally` block resets the progress snapshot. -/
def failRun (s : TaskManagerState) (msg : String) : TaskManagerState :=
  if s.active then
    let db' :=
      match s.syncProgress.jobId with
      | some jid => setJobFailed s.db jid msg
      | none => s.db
    { s with db := db', syncProgress := {}, active := false }
  else s

/-- `TaskManager.check_and_resume_sync` composed with `_resume_sync`
(`task_manager.py` lines 95-124): find a job left in `running` status,
reload it by id, and when it has a channel call `start_sync` with
`resume_job_id` set. -/
def checkAndResumeSync (s : TaskManagerState) : TaskManagerState :=
  match s.db.jobs.find? (fun j => decide (j.status = .running)) with
  | none => s
  | some incompleteJob =>
    match findJob s.db incompleteJob.id with
    | none => s
    | some job =>
      if job.channelId.isSome then
        (startSync s job.jobType job.timeFilter job.channelId (some incompleteJob.id)).1
      else s

/-- `SyncScheduler._run_auto_sync` (`scheduler.py` lines 76-87): the cron
occurrence calls `task_manager.start_sync(job_type=sync_type,
time_filter="week")` -- with no `channel_id` and no `resume_job_id` -- and
catches any exception, logging its message. -/
def runAutoSync (s : TaskManagerState) (syncType : String) : TaskManagerState × Option String :=
  match startSync s syncType "week" none none with
  | (s', Except.ok _) => (s', none)
  | (s', Except.error e) => (s', some e)

/-- One process-lifetime event for the trace machine.  `start` is an external
`start_sync` request (the HTTP layer passes a channel id only, `api/v1/sync.py`
lines 19-38); `resume` is the startup `check_and_resume_sync` call; `finish`
and `fail` are the running task reaching its completion write or its
orchestration-failure handler; `stop` is a `stop_sync` request. -/
inductive Op where
  | start (jobType timeFilter : String) (channelId : Option Nat)
  | resume
  | finish
  | stop
  | fail (msg : String)
deriving Repr

/-- Apply one event to the state. -/
def step (s : TaskManagerState) (op : Op) : TaskManagerState :=
  match op with
  | .start jt tf cid => (startSync s jt tf cid none).1
  | .resume => checkAndResumeSync s
  | .finish => finishRun s
  | .stop => stopSync s
  | .fail msg => failRun s msg

/-- Run a trace of events from a state. -/
def runOpsFrom (s : TaskManagerState) (ops : List Op) : TaskManagerState :=
  ops.foldl step s

/-- The state at process start: idle slot, empty job and error tables, the
given channels. -/
def initState (channels : List Nat) : TaskManagerState :=
  { active := false, syncProgress := {}, cancelRequested := false,
    db := { jobs := [], errors := [], channels := channels, nextJobId := 1 } }

/-- Run a trace of events from process start. -/
def runOps (channels : List Nat) (ops : List Op) : TaskManagerState :=
  runOpsFrom (initState channels) ops

/-- One enumerated video, as produced by `youtube_api.get_channel_videos`. -/
structure VideoData where
  youtubeVideoId : String
  title : String
deriving DecidableEq, Repr

/-- The external world seen by one `_run_sync` execution: the value of
`cancel_requested` at each of its check points and the outcome of each item's
`_process_video` call. -/
structure RunEnv where
  cancelA : Bool
  cancelB : Bool
  pageCancel : Nat → Bool
  itemCancel : Nat → Bool
  itemOk : Nat → Bool
  itemErr : Nat → String

/-- The pagination loop of `_fetch_video_list` (`task_manager.py` lines
345-361): before fetching each page the cancel flag is checked; otherwise the
page is appended and the loop continues while a next-page token exists (the
supplied list of pages ends where the token runs out). -/
def fetchPages (pageCancel : Nat → Bool) : Nat → List (List VideoData) → List VideoData
  | _, [] => []
  | i, page :: rest =>
    if pageCancel i then [] else page ++ fetchPages pageCancel (i + 1) rest

/-- `TaskManager._fetch_video_list` (`task_manager.py` lines 334-372):
paginate the channel's videos, then, only for job type `new_only`, drop the
videos whose `youtube_video_id` is already marked downloaded
(`Video.is_downloaded == True`).  No other job type filters the list. -/
def fetchVideoList (pageCancel : Nat → Bool) (jobType : String)
    (pages : List (List VideoData)) (downloadedIds : List String) : List VideoData :=
  let allVideos := fetchPages pageCancel 0 pages
  if jobType = "new_only" then
    allVideos.filter (fun v => !(decide (v.youtubeVideoId ∈ downloadedIds)))
  else allVideos

/-- The mutable state of the per-item loop of `_run_sync`: the in-memory
processed counter, the appended error rows, the indices of the items whose
processing began, and the job row as last written by `_update_job_progress`
(which persists exactly `total_items` and `processed_items`,
`task_manager.py` lines 546-556). -/
structure LoopState where
  processedItems : Nat
  errors : List ErrorLog
  began : List Nat
  jobRow : SyncJob
deriving DecidableEq, Repr

/-- The per-item loop of `_run_sync` (`task_manager.py` lines 239-262): before
item `i` the cancel flag is checked (a `break` on observation); otherwise the
item's processing begins; a failure of `_process_video` is caught and logged
as an error row with `video_id=None` (line 259); `processed_items` advances
unconditionally and is persisted.  No write to `failed_items` exists in the
source. -/
def runLoop (env : RunEnv) (jobId : Nat) (total : Nat) :
    Nat → List VideoData → LoopState → LoopState
  | _, [], st => st
  | i, _v :: rest, st =>
    if env.itemCancel i then st
    else
      let errs :=
        if env.itemOk i then st.errors
        else st.errors ++ [{ syncJobId := some jobId, videoId := none,
                             errorMessage := env.itemErr i }]
      let processed := st.processedItems + 1
      let row := { st.jobRow with totalItems := total, processedItems := processed }
      runLoop env jobId total (i + 1) rest
        { processedItems := processed, errors := errs, began := st.began ++ [i], jobRow := row }

/-- What one `_run_sync` execution produced: the candidate list, the indices
that began processing, the error rows, the job row right after the first
`_update_job_progress` call (line 236; `none` when an early return came
first), and the job row at the end of the phase sequence. -/
structure RunResult where
  candidates : List VideoData
  began : List Nat
  errors : List ErrorLog
  firstWrite : Option SyncJob
  finalJob : SyncJob
deriving DecidableEq, Repr

/-- `TaskManager._run_sync` (`task_manager.py` lines 207-316) as a pure
function of the job row it was started for.  The channel-metadata refresh is
best-effort and writes no job state, so it contributes nothing here.  The
candidate list is `fetchVideoList` of the full enumeration: `job.resumeFrom`
is never consulted (no line of the source reads `resume_from`), so a resumed
job replays from the beginning.  The first progress write persists
`total_items := len(videos_to_sync)` and `processed_items := 0`, because
`start_sync` replaced `sync_progress` with a fresh snapshot (line 172).  The
completion write at lines 264-273 is modelled only for an execution that was
not hard-cancelled (see the header comment on cancellation). -/
def runSync (env : RunEnv) (job : SyncJob) (pages : List (List VideoData))
    (downloadedIds : List String) : RunResult :=
  if env.cancelA then
    { candidates := [], began := [], errors := [], firstWrite := none, finalJob := job }
  else
    let items := fetchVideoList env.pageCancel job.jobType pages downloadedIds
    if env.cancelB then
      { candidates := items, began := [], errors := [], firstWrite := none, finalJob := job }
    else
      let job1 := { job with totalItems := items.length, processedItems := 0 }
      let st0 : LoopState := { processedItems := 0, errors := [], began := [], jobRow := job1 }
      let stN := runLoop env job.id items.length 0 items st0
      { candidates := items, began := stN.began, errors := stN.errors,
        firstWrite := some job1, finalJob := { stN.jobRow with status := .completed } }

/-- A `videos` row, restricted to the fields `_download_video` touches. -/
structure Video where
  id : Nat
  youtubeVideoId : String
  title : String
  isDownloaded : Bool
  videoLocalPath : Option String
  videoSizeBytes : Nat
  videoQuality : Option String
deriving DecidableEq, Repr

/-- The result dictionary of `VideoDownloader.download_video`
(`video_downloader.py` lines 153-169). -/
structure DlResult where
  success : Bool
  videoPath : Option String
  fileSize : Nat
  quality : String
  error : Option String
deriving DecidableEq, Repr

/-- The rows affected by one `_download_video` call. -/
structure DownloadOutcome where
  video : Video
  errors : List ErrorLog
  queue : List QueueItem
deriving DecidableEq, Repr

/-- `TaskManager._download_video` (`task_manager.py` lines 433-477): on
success the video row's download fields are set; on failure an error row is
appended immediately.  The function reads and writes only `videos` and
`error_logs`: no `download_queue` row is created, read, or updated anywhere in
`task_manager.py` (the class only imports `DownloadQueue`; the sole readers
are the status endpoints in `api/v1/status.py`), so the queue table passes
through unchanged and in particular no retry counter is touched. -/
def downloadVideoEffect (result : DlResult) (video : Video) (jobId : Nat)
    (errors : List ErrorLog) (queue : List QueueItem) : DownloadOutcome :=
  if result.success then
    let video' := { video with
      isDownloaded := true, videoLocalPath := result.videoPath,
      videoSizeBytes := result.fileSize, videoQuality := some result.quality }
    { video := video', errors := errors, queue := queue }
  else
    { video := video,
      errors := errors ++ [{ syncJobId := some jobId, videoId := some video.id,
                             errorMessage := result.error.getD "Download failed" }],
      queue := queue }

/-- One WebSocket subscriber; `sendOk` is whether `ws.send_json` succeeds for
the message being broadcast. -/
structure Subscriber where
  id : Nat
  sendOk : Bool
deriving DecidableEq, Repr

/-- The delivery attempt to one subscriber (`await ws.send_json(message)`). -/
def sendJson (w : Subscriber) : Except String Unit :=
  if w.sendOk then Except.ok () else Except.error "send failed"

/-- The `for ws in self.websocket_connections` loop of `TaskManager.broadcast`
(`task_manager.py` lines 85-93): every delivery is attempted inside its own
`try`; a raising subscriber is collected into `disconnected` and the loop
continues.  Returns the delivered-to ids and the `disconnected` set. -/
def broadcastGo : List Subscriber → List Nat × List Subscriber
  | [] => ([], [])
  | w :: rest =>
    let r := broadcastGo rest
    match sendJson w with
    | Except.ok _ => (w.id :: r.1, r.2)
    | Except.error _ => (r.1, w :: r.2)

/-- The outcome of one `broadcast` call. -/
structure BroadcastResult where
  delivered : List Nat
  remaining : List Subscriber
deriving DecidableEq, Repr

/-- `TaskManager.broadcast`: attempt delivery to every subscriber, then
`self.websocket_connections -= disconnected`.  The function is total -- every
per-subscriber exception is caught -- so nothing propagates to the
publisher. -/
def broadcast (subs : List Subscriber) : BroadcastResult :=
  let r := broadcastGo subs
  { delivered := r.1, remaining := subs.filter (fun w => !(decide (w ∈ r.2))) }

/-- The `downloading`-branch input of `VideoDownloader._progress_hook`
(`video_downloader.py` lines 27-49): `totalBytes` is
`d.get('total_bytes') or d.get('total_bytes_estimate', 0)`, hence `0` when
the total is unknown. -/
structure HookInput where
  downloadedBytes : Nat
  totalBytes : Nat
  speedStr : String
  etaStr : String
deriving DecidableEq, Repr

/-- The `progress_data` dictionary the hook forwards to the progress
callback. -/
structure HookProgress where
  status : String
  progress : Rat
  speed : String
  eta : String
  downloadedBytes : Nat
  totalBytes : Nat
deriving DecidableEq, Repr

/-- The `downloading` branch of `VideoDownloader._progress_hook`: `progress`
starts at `0` and, when `total_bytes > 0`, becomes
`downloaded_bytes / total_bytes * 100`. -/
def progressHookDownloading (d : HookInput) : HookProgress :=
  let base : HookProgress :=
    { status := "downloading", progress := 0, speed := d.speedStr, eta := d.etaStr,
      downloadedBytes := d.downloadedBytes, totalBytes := d.totalBytes }
  if d.totalBytes > 0 then
    { base with progress := ((d.downloadedBytes : Rat) / (d.totalBytes : Rat)) * 100 }
  else base

/-- The trace-machine invariant: job ids are bounded by the id counter and
distinct; while a task is active the progress snapshot names a job id, only
that id can be in `running` status and the row with that id (if any) is
`running`; while idle no row is `running`. -/
def TMInv (s : TaskManagerState) : Prop :=
  (∀ j ∈ s.db.jobs, j.id < s.db.nextJobId) ∧
  (jobIds s.db).Nodup ∧
  (s.active = true →
    ∃ jid, s.syncProgress.jobId = some jid ∧ jid < s.db.nextJobId ∧
      (∀ j ∈ s.db.jobs, j.id = jid → j.status = .running) ∧
      (∀ j ∈ s.db.jobs, j.status = .running → j.id = jid)) ∧
  (s.active = false → ∀ j ∈ s.db.jobs, j.status ≠ .running)

/-- Persistence of a cancelled job: every row with id `jid` is `cancelled`,
`jid` is below the id counter (so no later insert reuses it), and no active
task points at it. -/
def CancelledStays (jid : Nat) (s : TaskManagerState) : Prop :=
  jid < s.db.nextJobId ∧
  (∀ j ∈ s.db.jobs, j.id = jid → j.status = .cancelled) ∧
  (s.active = true → s.syncProgress.jobId ≠ some jid)

/-- A `_run_sync` execution during which no cancellation is ever observed and
every item processes successfully. -/
def noCancelEnv : RunEnv :=
  { cancelA := false, cancelB := false, pageCancel := fun _ => false,
    itemCancel := fun _ => false, itemOk := fun _ => true, itemErr := fun _ => "" }

/-- A job row left in `running` status by a crashed process: 2 of its 4 items
had been processed and its `resume_from` marker points at "v3". -/
def crashedJob : SyncJob :=
  { id := 1, jobType := "full", timeFilter := "all", channelId := some 1,
    status := .running, totalItems := 4, processedItems := 2, failedItems := 0,
    errorMessage := none, resumeFrom := some "v3" }

/-- The state the restarted process finds: idle task slot, the crashed job
still `running` in the database. -/
def crashState : TaskManagerState :=
  { active := false, syncProgress := {}, cancelRequested := false,
    db := { jobs := [crashedJob], errors := [], channels := [1], nextJobId := 2 } }

/-- The channel's enumeration, two pages of two videos. -/
def crashPages : List (List VideoData) :=
  [[{ youtubeVideoId := "v1", title := "t1" }, { youtubeVideoId := "v2", title := "t2" }],
   [{ youtubeVideoId := "v3", title := "t3" }, { youtubeVideoId := "v4", title := "t4" }]]

/-- An execution in which item 0's `_process_video` raises and every other
item succeeds. -/
def c4Env : RunEnv :=
  { noCancelEnv with
    itemOk := fun i => decide (i ≠ 0),
    itemErr := fun _ => "metadata fetch failed" }

/-- A freshly created job row (as inserted by `start_sync`). -/
def c4Job : SyncJob :=
  { id := 1, jobType := "full", timeFilter := "all", channelId := some 1,
    status := .running, totalItems := 0, processedItems := 0, failedItems := 0,
    errorMessage := none, resumeFrom := none }

/-- A queue row for video 7 with the default retry state
(`retry_count=0`, `max_retries=3`). -/
def c5QueueItem : QueueItem :=
  { id := 1, videoId := 7, syncJobId := some 1, status := "queued", progress := 0,
    retryCount := 0, maxRetries := 3, errorMessage := none }

/-- The video row being downloaded. -/
def c5Video : Video :=
  { id := 7, youtubeVideoId := "v7", title := "T", isDownloaded := false,
    videoLocalPath := none, videoSizeBytes := 0, videoQuality := none }

/-- A failed download result, as returned by `download_video`'s exception
handler (`video_downloader.py` lines 161-169). -/
def c5FailResult : DlResult :=
  { success := false, videoPath := none, fileSize := 0, quality := "unknown",
    error := some "network error" }

/-- The delivery loop collects exactly the failing subscribers into
`disconnected` and delivers to exactly the succeeding ones. -/
theorem broadcastGo_spec (subs : List Subscriber) :
    broadcastGo subs =
      ((subs.filter (fun w => w.sendOk)).map Subscriber.id,
        subs.filter (fun w => !w.sendOk)) := by
  induction subs with
  | nil => rfl
  | cons w rest ih =>
    by_cases h : w.sendOk
    · simp [broadcastGo, ih, sendJson, h]
    · simp at h
      simp [broadcastGo, ih, sendJson, h]

/-- Removing the `disconnected` set keeps exactly the subscribers whose
delivery succeeded. -/
theorem broadcast_remaining (subs : List Subscriber) :
    (broadcast subs).remaining = subs.filter (fun w => w.sendOk) := by
  simp only [broadcast, broadcastGo_spec]
  refine List.filter_congr ?_
  intro w hw
  by_cases h : w.sendOk
  · simp [h]
  · simp at h
    simp [h, List.mem_filter, hw]

/-- C7: publishing a progress event with any subscriber set completes without
raising to the publisher (the embedded `broadcast` is a total function whose
delivery attempts are each guarded); a subscriber whose delivery attempt
errors is silently removed from the subscriber set, and every subscriber whose
delivery succeeds receives the event regardless of the failures of others. -/
theorem c7_broadcast_isolates_failures (subs : List Subscriber) :
    (broadcast subs).delivered = (subs.filter (fun w => w.sendOk)).map Subscriber.id ∧
    (broadcast subs).remaining = subs.filter (fun w => w.sendOk) ∧
    (∀ w ∈ subs, w.sendOk = true → w.id ∈ (broadcast subs).delivered) ∧
    (∀ w ∈ subs, w.sendOk = false → w ∉ (broadcast subs).remaining) := by
  refine ⟨by simp [broadcast, broadcastGo_spec], broadcast_remaining subs, ?_, ?_⟩
  · intro w hw hok
    simp [broadcast, broadcastGo_spec]
    exact ⟨w, ⟨hw, hok⟩, rfl⟩
  · intro w hw hfail
    rw [broadcast_remaining]
    intro hmem
    rw [List.mem_filter] at hmem
    rw [hfail] at hmem
    simp at hmem

/-- C7 witness: a three-subscriber set in which subscriber 2's delivery
errors: 1 and 3 are still delivered to, 2 is removed. -/
theorem c7_broadcast_isolates_failures_witness :
    (broadcast [{ id := 1, sendOk := true }, { id := 2, sendOk := false },
                { id := 3, sendOk := true }]).delivered = [1, 3] ∧
    (1 : Nat) ∈ (broadcast [{ id := 1, sendOk := true }, { id := 2, sendOk := false },
                { id := 3, sendOk := true }]).delivered ∧
    ({ id := 2, sendOk := false } : Subscriber) ∉
      (broadcast [{ id := 1, sendOk := true }, { id := 2, sendOk := false },
                { id := 3, sendOk := true }]).remaining := by
  obtain ⟨h1, _, h3, h4⟩ := c7_broadcast_isolates_failures
    [{ id := 1, sendOk := true }, { id := 2, sendOk := false }, { id := 3, sendOk := true }]
  exact ⟨h1.trans (by decide),
    h3 { id := 1, sendOk := true } (by decide) (by decide),
    h4 { id := 2, sendOk := false } (by decide) (by decide)⟩

/-- C9 counterexample: at 50 bytes of 100 the hook reports `progress = 50`, a
percentage, which is not a fraction in `[0,1]` as the claim states. -/
theorem c9_counterexample :
    (progressHookDownloading
      { downloadedBytes := 50, totalBytes := 100, speedStr := "1 MiB/s",
        etaStr := "10s" }).progress = 50 ∧
    ¬ ((progressHookDownloading
      { downloadedBytes := 50, totalBytes := 100, speedStr := "1 MiB/s",
        etaStr := "10s" }).progress ≤ 1) := by
  constructor <;> norm_num [progressHookDownloading]

/-- C9 amended: the hook reports a percent-complete value computed as
`downloaded_bytes / total_bytes * 100` -- a percentage in `[0,100]` whenever
`downloaded_bytes ≤ total_bytes`, not a fraction in `[0,1]` -- and the value
is `0` when the total byte count is unknown (`totalBytes = 0`). -/
theorem c9_percent_of_bytes (d : HookInput) :
    (d.totalBytes = 0 → (progressHookDownloading d).progress = 0) ∧
    (0 < d.totalBytes →
      (progressHookDownloading d).progress =
        ((d.downloadedBytes : Rat) / (d.totalBytes : Rat)) * 100) ∧
    (d.downloadedBytes ≤ d.totalBytes →
      0 ≤ (progressHookDownloading d).progress ∧
      (progressHookDownloading d).progress ≤ 100) := by
  refine ⟨?_, ?_, ?_⟩
  · intro h0
    simp [progressHookDownloading, h0]
  · intro hpos
    simp [progressHookDownloading, hpos]
  · intro hle
    rcases Nat.eq_zero_or_pos d.totalBytes with h0 | hpos
    · simp [progressHookDownloading, h0]
    · have hq : (0 : Rat) < (d.totalBytes : Rat) := by exact_mod_cast hpos
      have h1 : (d.downloadedBytes : Rat) / (d.totalBytes : Rat) ≤ 1 := by
        rw [div_le_one hq]
        exact_mod_cast hle
      constructor
      · simp only [progressHookDownloading, if_pos hpos]
        positivity
      · simp only [progressHookDownloading, if_pos hpos]
        calc (d.downloadedBytes : Rat) / (d.totalBytes : Rat) * 100
            ≤ 1 * 100 := by
              exact mul_le_mul_of_nonneg_right h1 (by norm_num)
          _ = 100 := by norm_num

/-- C9 witness: at 50 of 100 bytes the percentage is 50 and lies in
`[0,100]`; with an unknown total it is 0. -/
theorem c9_percent_of_bytes_witness :
    (progressHookDownloading
      { downloadedBytes := 50, totalBytes := 100, speedStr := "s",
        etaStr := "e" }).progress = ((50 : Rat) / (100 : Rat)) * 100 ∧
    (0 ≤ (progressHookDownloading
      { downloadedBytes := 50, totalBytes := 100, speedStr := "s",
        etaStr := "e" }).progress ∧
      (progressHookDownloading
        { downloadedBytes := 50, totalBytes := 100, speedStr := "s",
          etaStr := "e" }).progress ≤ 100) ∧
    (progressHookDownloading
      { downloadedBytes := 7, totalBytes := 0, speedStr := "s",
        etaStr := "e" }).progress = 0 := by
  obtain ⟨_, hb, hc⟩ := c9_percent_of_bytes
    { downloadedBytes := 50, totalBytes := 100, speedStr := "s", etaStr := "e" }
  obtain ⟨ha', _, _⟩ := c9_percent_of_bytes
    { downloadedBytes := 7, totalBytes := 0, speedStr := "s", etaStr := "e" }
  exact ⟨by simpa using hb (by norm_num), hc (by norm_num), ha' rfl⟩

/-- C10: a `start_sync` call with neither a channel id nor a resume-job id
raises before any job record is created and before the active-task slot or
any other field is changed (the returned state is exactly the input state);
when the mutual-exclusion gate passes, the raised error is
"channel_id is required"; and the auto-sync trigger, which passes neither
reference, hits exactly this precondition. -/
theorem c10_channel_required (s : TaskManagerState) (jt tf : String) :
    (startSync s jt tf none none).1 = s ∧
    (∃ e, (startSync s jt tf none none).2 = Except.error e) ∧
    (s.active = false → (startSync s jt tf none none).2 =
      Except.error "channel_id is required") ∧
    (∀ st, (runAutoSync s st).1 = s ∧
      (s.active = false → (runAutoSync s st).2 = some "channel_id is required")) := by
  by_cases ha : s.active
  · refine ⟨by simp [startSync, ha], ⟨"A sync is already in progress", by simp [startSync, ha]⟩,
      ?_, ?_⟩
    · intro hfalse
      rw [ha] at hfalse
      cases hfalse
    · intro st
      refine ⟨by simp [runAutoSync, startSync, ha], ?_⟩
      intro hfalse
      rw [ha] at hfalse
      cases hfalse
  · simp only [Bool.not_eq_true] at ha
    refine ⟨by simp [startSync, ha], ⟨"channel_id is required", by simp [startSync, ha]⟩,
      fun _ => by simp [startSync, ha], ?_⟩
    intro st
    exact ⟨by simp [runAutoSync, startSync, ha], fun _ => by simp [runAutoSync, startSync, ha]⟩

/-- C10 witness: on the idle initial state the call errors with
"channel_id is required" and changes nothing, also when issued through the
auto-sync trigger. -/
theorem c10_channel_required_witness :
    (startSync (initState [1]) "full" "all" none none).1 = initState [1] ∧
    (startSync (initState [1]) "full" "all" none none).2 =
      Except.error "channel_id is required" ∧
    (runAutoSync (initState [1]) "new_only").1 = initState [1] ∧
    (runAutoSync (initState [1]) "new_only").2 = some "channel_id is required" := by
  obtain ⟨h1, _, h3, h4⟩ := c10_channel_required (initState [1]) "full" "all"
  exact ⟨h1, h3 rfl, (h4 "new_only").1, (h4 "new_only").2 rfl⟩

/-- C8: the auto-sync occurrence never starts a job.  Even on an idle
orchestrator with an existing channel, `_run_auto_sync`'s call
`start_sync(job_type=sync_type, time_filter="week")` passes no `channel_id`
and no `resume_job_id`, so `start_sync` raises "channel_id is required"
before creating any job; the trigger catches and logs the error, leaving the
state unchanged and no job running -- contradicting the claim that the
occurrence successfully starts a job of the configured kind. -/
theorem c8_auto_sync_never_starts :
    (runAutoSync (initState [1]) "new_only").2 = some "channel_id is required" ∧
    (runAutoSync (initState [1]) "new_only").1 = initState [1] ∧
    runningJobs (runAutoSync (initState [1]) "new_only").1.db = [] ∧
    (runAutoSync (initState [1]) "full").2 = some "channel_id is required" := by
  decide

/-- C5: a failed download attempt leaves every `download_queue` row exactly
as it was -- no retry counter is incremented, the item is not moved to
`failed` -- while an error row is surfaced immediately on the first failure
(retry_count 0, far below the ceiling of 3), and the video stays not
downloaded.  `_download_video` never touches the queue table. -/
theorem c5_no_retry_machinery :
    (downloadVideoEffect c5FailResult c5Video 1 [] [c5QueueItem]).queue = [c5QueueItem] ∧
    ((downloadVideoEffect c5FailResult c5Video 1 [] [c5QueueItem]).queue.map
      QueueItem.retryCount) = [0] ∧
    ((downloadVideoEffect c5FailResult c5Video 1 [] [c5QueueItem]).queue.map
      QueueItem.status) = ["queued"] ∧
    (downloadVideoEffect c5FailResult c5Video 1 [] [c5QueueItem]).errors =
      [{ syncJobId := some 1, videoId := some 7, errorMessage := "network error" }] ∧
    (downloadVideoEffect c5FailResult c5Video 1 [] [c5QueueItem]).video.isDownloaded
      = false ∧
    c5QueueItem.retryCount = 0 ∧ c5QueueItem.maxRetries = 3 := by
  decide

/-- C3: resuming the crashed job replays the run from the beginning.  The
startup resume path does re-launch the job (the slot becomes active, pointed
at job 1), but the candidate list is the full enumeration ["v1","v2","v3","v4"]
-- the `resume_from` marker "v3" is never read -- every index 0..3 begins
processing again (re-fetching the already-completed items), and the first
progress write persists `processed_items = 0`, strictly below the pre-crash
value 2, so the processed-item count is not monotonically non-decreasing. -/
theorem c3_resume_restarts_from_scratch :
    (checkAndResumeSync crashState).active = true ∧
    (checkAndResumeSync crashState).syncProgress.jobId = some 1 ∧
    ((runSync noCancelEnv crashedJob crashPages []).candidates.map
      VideoData.youtubeVideoId) = ["v1", "v2", "v3", "v4"] ∧
    (runSync noCancelEnv crashedJob crashPages []).began = [0, 1, 2, 3] ∧
    (runSync noCancelEnv crashedJob crashPages []).firstWrite =
      some { crashedJob with totalItems := 4, processedItems := 0 } ∧
    crashedJob.processedItems = 2 ∧
    crashedJob.resumeFrom = some "v3" := by
  decide

/-- Every video surviving the `new_only` filter is not marked downloaded. -/
theorem fetchVideoList_new_only (pc : Nat → Bool) (pages : List (List VideoData))
    (dl : List String) :
    ∀ v ∈ fetchVideoList pc "new_only" pages dl, v.youtubeVideoId ∉ dl := by
  intro v hv
  simp only [fetchVideoList, if_true, eq_self_iff_true, List.mem_filter] at hv
  simpa using hv.2

/-- The candidate list of a run is empty or the `fetchVideoList` result. -/
theorem runSync_candidates (env : RunEnv) (job : SyncJob)
    (pages : List (List VideoData)) (dl : List String) :
    (runSync env job pages dl).candidates = [] ∨
    (runSync env job pages dl).candidates =
      fetchVideoList env.pageCancel job.jobType pages dl := by
  by_cases hA : env.cancelA
  · left
    simp [runSync, hA]
  · right
    simp only [Bool.not_eq_true] at hA
    by_cases hB : env.cancelB
    · simp [runSync, hA, hB]
    · simp only [Bool.not_eq_true] at hB
      simp [runSync, hA, hB]

/-- C6: a `new_only` (the spec's `incremental`) enumeration excludes every
item already marked downloaded from the candidate list before processing
begins -- the loop's input, `runSync`'s candidate list, never contains one --
whereas a `full` job applies no such exclusion: its candidate list is exactly
the full paginated enumeration. -/
theorem c6_new_only_excludes_downloaded (pc : Nat → Bool)
    (pages : List (List VideoData)) (dl : List String) :
    (∀ v ∈ fetchVideoList pc "new_only" pages dl, v.youtubeVideoId ∉ dl) ∧
    fetchVideoList pc "full" pages dl = fetchPages pc 0 pages ∧
    (∀ (env : RunEnv) (job : SyncJob), job.jobType = "new_only" →
      ∀ v ∈ (runSync env job pages dl).candidates, v.youtubeVideoId ∉ dl) := by
  refine ⟨fetchVideoList_new_only pc pages dl, ?_, ?_⟩
  · simp [fetchVideoList]
  · intro env job hjt v hv
    rcases runSync_candidates env job pages dl with h | h
    · rw [h] at hv
      cases hv
    · rw [h, hjt] at hv
      exact fetchVideoList_new_only env.pageCancel pages dl v hv

/-- C6 witness: with "v2" already downloaded, a `new_only` run's candidates
omit it ("v1" passes and is not downloaded), while a `full` run enumerates
everything. -/
theorem c6_new_only_excludes_downloaded_witness :
    ({ youtubeVideoId := "v1", title := "t1" } : VideoData).youtubeVideoId ∉ ["v2"] ∧
    fetchVideoList (fun _ => false) "full" crashPages ["v2"] =
      fetchPages (fun _ => false) 0 crashPages ∧
    ({ youtubeVideoId := "v3", title := "t3" } : VideoData).youtubeVideoId ∉ ["v2"] := by
  obtain ⟨h1, h2, h3⟩ :=
    c6_new_only_excludes_downloaded (fun _ => false) crashPages ["v2"]
  refine ⟨h1 { youtubeVideoId := "v1", title := "t1" } (by decide), h2, ?_⟩
  exact h3 { noCancelEnv with pageCancel := fun _ => false }
    { c4Job with jobType := "new_only" } (by decide)
    { youtubeVideoId := "v3", title := "t3" } (by decide)

/-- Unfolding lemma for the empty loop. -/
theorem runLoop_nil (env : RunEnv) (jid tot i : Nat) (st : LoopState) :
    runLoop env jid tot i [] st = st := rfl

/-- Unfolding lemma for one loop iteration. -/
theorem runLoop_cons (env : RunEnv) (jid tot i : Nat) (v : VideoData)
    (rest : List VideoData) (st : LoopState) :
    runLoop env jid tot i (v :: rest) st =
      if env.itemCancel i then st
      else
        runLoop env jid tot (i + 1) rest
          { processedItems := st.processedItems + 1,
            errors :=
              if env.itemOk i then st.errors
              else st.errors ++ [{ syncJobId := some jid, videoId := none,
                                   errorMessage := env.itemErr i }],
            began := st.began ++ [i],
            jobRow := { st.jobRow with
                        totalItems := tot,
                        processedItems := st.processedItems + 1 } } := by
  rw [runLoop]

/-- When no cancellation is observed at any item boundary, the loop processes
every item: it begins each index in order, increments the processed counter
once per item (failures included), appends one error row per failing item,
never touches `failed_items`, and its last progress write persists the full
processed count. -/
theorem runLoop_no_cancel (env : RunEnv) (jid tot : Nat)
    (hnc : ∀ i, env.itemCancel i = false) :
    ∀ (items : List VideoData) (i : Nat) (st : LoopState),
      (runLoop env jid tot i items st).processedItems
          = st.processedItems + items.length ∧
      (runLoop env jid tot i items st).began = st.began ++ List.range' i items.length ∧
      (runLoop env jid tot i items st).errors =
        st.errors ++ ((List.range' i items.length).filter (fun k => !env.itemOk k)).map
          (fun k => { syncJobId := some jid, videoId := none,
                      errorMessage := env.itemErr k }) ∧
      (runLoop env jid tot i items st).jobRow.failedItems = st.jobRow.failedItems ∧
      (runLoop env jid tot i items st).jobRow.processedItems =
        (if items.length = 0 then st.jobRow.processedItems
         else st.processedItems + items.length) := by
  intro items
  induction items with
  | nil =>
    intro i st
    simp [runLoop_nil]
  | cons v rest ih =>
    intro i st
    rw [runLoop_cons, if_neg (by simp [hnc i])]
    obtain ⟨h1, h2, h3, h4, h5⟩ := ih (i + 1)
      { processedItems := st.processedItems + 1,
        errors :=
          if env.itemOk i then st.errors
          else st.errors ++ [{ syncJobId := some jid, videoId := none,
                               errorMessage := env.itemErr i }],
        began := st.began ++ [i],
        jobRow := { st.jobRow with
                    totalItems := tot,
                    processedItems := st.processedItems + 1 } }
    refine ⟨?_, ?_, ?_, ?_, ?_⟩
    · rw [h1]
      simp
      omega
    · rw [h2]
      simp [List.range'_succ]
    · rw [h3]
      rcases Bool.eq_false_or_eq_true (env.itemOk i) with hok | hok
    -- the filter over i :: range' (i+1) keeps or drops i according to itemOk
      · simp [List.range'_succ, hok]
      · simp [List.range'_succ, hok]
    · rw [h4]
    · rw [h5]
      by_cases hr : rest.length = 0
      · simp [hr]
      · simp [hr]
        omega

/-- C4 counterexample: on a two-item run in which item 0's processing fails,
the failure is logged (one error row) and the loop continues (both items are
processed), but the job's `failed_items` counter is NOT incremented: it stays
0 -- `_run_sync` and `_update_job_progress` contain no write to
`failed_items` -- contradicting the claim that it is incremented. -/
theorem c4_counterexample :
    (runSync c4Env c4Job
      [[{ youtubeVideoId := "a", title := "A" },
        { youtubeVideoId := "b", title := "B" }]] []).errors.length = 1 ∧
    (runSync c4Env c4Job
      [[{ youtubeVideoId := "a", title := "A" },
        { youtubeVideoId := "b", title := "B" }]] []).finalJob.processedItems = 2 ∧
    (runSync c4Env c4Job
      [[{ youtubeVideoId := "a", title := "A" },
        { youtubeVideoId := "b", title := "B" }]] []).finalJob.failedItems = 0 ∧
    ¬ ((runSync c4Env c4Job
      [[{ youtubeVideoId := "a", title := "A" },
        { youtubeVideoId := "b", title := "B" }]] []).finalJob.failedItems = 1) := by
  decide

/-- C4 amended: a per-item failure is caught, logged as an error row, and the
loop continues: in any run with no cancellation observed, the final processed
count equals the enumerated candidate count (failures included), exactly one
error row exists per failing candidate index, the run completes, every
candidate index begins processing -- but the job's `failed_items` counter is
never incremented, retaining its initial value. -/
theorem c4_per_item_failure_continues (env : RunEnv) (job : SyncJob)
    (pages : List (List VideoData)) (dl : List String)
    (hA : env.cancelA = false) (hB : env.cancelB = false)
    (hC : ∀ i, env.itemCancel i = false) :
    (runSync env job pages dl).finalJob.processedItems =
      (runSync env job pages dl).candidates.length ∧
    (runSync env job pages dl).errors.length =
      ((List.range (runSync env job pages dl).candidates.length).filter
        (fun k => !env.itemOk k)).length ∧
    (runSync env job pages dl).finalJob.failedItems = job.failedItems ∧
    (runSync env job pages dl).began =
      List.range (runSync env job pages dl).candidates.length ∧
    (runSync env job pages dl).finalJob.status = .completed := by
  have hA' : ¬ (env.cancelA = true) := by simp [hA]
  have hB' : ¬ (env.cancelB = true) := by simp [hB]
  simp only [runSync, if_neg hA', if_neg hB']
  obtain ⟨h1, h2, h3, h4, h5⟩ := runLoop_no_cancel env job.id
    (fetchVideoList env.pageCancel job.jobType pages dl).length hC
    (fetchVideoList env.pageCancel job.jobType pages dl) 0
    { processedItems := 0, errors := [], began := [],
      jobRow := { job with
        totalItems := (fetchVideoList env.pageCancel job.jobType pages dl).length,
        processedItems := 0 } }
  refine ⟨?_, ?_, ?_, ?_, ?_⟩
  · rw [h5]
    by_cases hlen : (fetchVideoList env.pageCancel job.jobType pages dl).length = 0
    · simp [hlen]
    · rw [if_neg hlen]
      simp
  · rw [h3]
    simp [List.range_eq_range']
  · rw [h4]
  · rw [h2]
    simp [List.range_eq_range']
  · simp


/-- C4 witness for the amended statement: the concrete two-item run with item
0 failing satisfies the hypotheses (no cancellation) and the conclusions. -/
theorem c4_per_item_failure_continues_witness :
    (runSync c4Env c4Job
      [[{ youtubeVideoId := "a", title := "A" },
        { youtubeVideoId := "b", title := "B" }]] []).finalJob.processedItems =
      (runSync c4Env c4Job
        [[{ youtubeVideoId := "a", title := "A" },
          { youtubeVideoId := "b", title := "B" }]] []).candidates.length ∧
    (runSync c4Env c4Job
      [[{ youtubeVideoId := "a", title := "A" },
        { youtubeVideoId := "b", title := "B" }]] []).errors.length =
      ((List.range (runSync c4Env c4Job
        [[{ youtubeVideoId := "a", title := "A" },
          { youtubeVideoId := "b", title := "B" }]] []).candidates.length).filter
        (fun k => !c4Env.itemOk k)).length ∧
    (runSync c4Env c4Job
      [[{ youtubeVideoId := "a", title := "A" },
        { youtubeVideoId := "b", title := "B" }]] []).finalJob.failedItems =
      c4Job.failedItems ∧
    (runSync c4Env c4Job
      [[{ youtubeVideoId := "a", title := "A" },
        { youtubeVideoId := "b", title := "B" }]] []).began =
      List.range (runSync c4Env c4Job
        [[{ youtubeVideoId := "a", title := "A" },
          { youtubeVideoId := "b", title := "B" }]] []).candidates.length ∧
    (runSync c4Env c4Job
      [[{ youtubeVideoId := "a", title := "A" },
        { youtubeVideoId := "b", title := "B" }]] []).finalJob.status = .completed := by
  exact c4_per_item_failure_continues c4Env c4Job
    [[{ youtubeVideoId := "a", title := "A" },
      { youtubeVideoId := "b", title := "B" }]] []
    (by decide) (by decide) (fun _ => rfl)

/-- An index can only appear in `began` when it came in already, or when the
cancel flag was observed false at it and at every boundary since the loop
entered. -/
theorem runLoop_began_no_cancel_before (env : RunEnv) (jid tot : Nat) :
    ∀ (items : List VideoData) (i : Nat) (st : LoopState),
      ∀ x ∈ (runLoop env jid tot i items st).began,
        x ∈ st.began ∨
          (i ≤ x ∧ ∀ k, i ≤ k → k ≤ x → env.itemCancel k = false) := by
  intro items
  induction items with
  | nil =>
    intro i st x hx
    exact Or.inl hx
  | cons v rest ih =>
    intro i st x hx
    rw [runLoop_cons] at hx
    by_cases hc : env.itemCancel i = true
    · rw [if_pos hc] at hx
      exact Or.inl hx
    · have hc' : env.itemCancel i = false := by simpa using hc
      rw [if_neg hc] at hx
      rcases ih (i + 1) _ x hx with h | ⟨hle, hall⟩
      · simp only [List.mem_append, List.mem_singleton] at h
        rcases h with h | h
        · exact Or.inl h
        · subst h
          refine Or.inr ⟨le_refl x, fun k hk1 hk2 => ?_⟩
          have : k = x := le_antisymm hk2 hk1
          subst this
          exact hc'
      · refine Or.inr ⟨le_trans (Nat.le_succ i) hle, fun k hk1 hk2 => ?_⟩
        rcases Nat.lt_or_ge k (i + 1) with hk | hk
        · have : k = i := by omega
          subst this
          exact hc'
        · exact hall k hk hk2

/-- Once the per-item loop observes the cancel request, no later item begins
processing: every index that began saw the flag false at its own boundary and
at every boundary before it. -/
theorem runSync_began_not_cancelled (env : RunEnv) (job : SyncJob)
    (pages : List (List VideoData)) (dl : List String) :
    ∀ x ∈ (runSync env job pages dl).began,
      ∀ k, k ≤ x → env.itemCancel k = false := by
  intro x hx k hk
  by_cases hA : env.cancelA = true
  · simp [runSync, hA] at hx
  · by_cases hB : env.cancelB = true
    · simp [runSync, hA, hB] at hx
    · simp only [runSync, if_neg hA, if_neg hB] at hx
      rcases runLoop_began_no_cancel_before env job.id
        (fetchVideoList env.pageCancel job.jobType pages dl).length
        (fetchVideoList env.pageCancel job.jobType pages dl) 0
        { processedItems := 0, errors := [], began := [],
          jobRow := { job with
            totalItems := (fetchVideoList env.pageCancel job.jobType pages dl).length,
            processedItems := 0 } } x hx with h | ⟨_, hall⟩
      · simp at h
      · exact hall k (Nat.zero_le k) hk

/-- Job-row updates do not touch the id counter. -/
theorem mapJob_nextJobId (db : DB) (jid : Nat) (f : SyncJob → SyncJob) :
    (mapJob db jid f).nextJobId = db.nextJobId := rfl

/-- Membership in an updated job table. -/
theorem mem_mapJob {db : DB} {jid : Nat} {f : SyncJob → SyncJob} {j : SyncJob} :
    j ∈ (mapJob db jid f).jobs ↔
      ∃ j0 ∈ db.jobs, j = if j0.id = jid then f j0 else j0 := by
  simp only [mapJob, List.mem_map]
  constructor
  · rintro ⟨j0, hj0, rfl⟩
    exact ⟨j0, hj0, rfl⟩
  · rintro ⟨j0, hj0, rfl⟩
    exact ⟨j0, hj0, rfl⟩

/-- An id-preserving row update leaves the id column unchanged. -/
theorem map_update_ids (jid : Nat) (f : SyncJob → SyncJob)
    (hf : ∀ j, (f j).id = j.id) :
    ∀ l : List SyncJob,
      (l.map (fun j => if j.id = jid then f j else j)).map (fun j => j.id)
        = l.map (fun j => j.id)
  | [] => rfl
  | j :: l => by
    by_cases h : j.id = jid <;>
      simp [h, hf, map_update_ids jid f hf l]

/-- An id-preserving row update leaves `jobIds` unchanged. -/
theorem jobIds_mapJob (db : DB) (jid : Nat) (f : SyncJob → SyncJob)
    (hf : ∀ j, (f j).id = j.id) :
    jobIds (mapJob db jid f) = jobIds db :=
  map_update_ids jid f hf db.jobs

/-- After a terminal-status write aimed at the only possibly-running id, the
table keeps bounded distinct ids and holds no running row. -/
theorem db_after_mapJob (db : DB) (jid : Nat) (f : SyncJob → SyncJob)
    (hfid : ∀ j, (f j).id = j.id) (hfnr : ∀ j, (f j).status ≠ .running)
    (hb : ∀ j ∈ db.jobs, j.id < db.nextJobId) (hn : (jobIds db).Nodup)
    (hback : ∀ j ∈ db.jobs, j.status = .running → j.id = jid) :
    (∀ j ∈ (mapJob db jid f).jobs, j.id < (mapJob db jid f).nextJobId) ∧
    (jobIds (mapJob db jid f)).Nodup ∧
    (∀ j ∈ (mapJob db jid f).jobs, j.status ≠ .running) := by
  refine ⟨?_, ?_, ?_⟩
  · intro j hj
    rcases mem_mapJob.mp hj with ⟨j0, hj0, rfl⟩
    rw [mapJob_nextJobId]
    by_cases h : j0.id = jid
    · rw [if_pos h, hfid]
      exact hb j0 hj0
    · rw [if_neg h]
      exact hb j0 hj0
  · rw [jobIds_mapJob db jid f hfid]
    exact hn
  · intro j hj hr
    rcases mem_mapJob.mp hj with ⟨j0, hj0, rfl⟩
    by_cases h : j0.id = jid
    · rw [if_pos h] at hr
      exact hfnr j0 hr
    · rw [if_neg h] at hr
      exact h (hback j0 hj0 hr)

/-- `start_sync` while a task is active: error, state untouched. -/
theorem startSync_active (s : TaskManagerState) (jt tf : String)
    (cid rid : Option Nat) (h : s.active = true) :
    startSync s jt tf cid rid = (s, Except.error "A sync is already in progress") := by
  simp [startSync, h]

/-- `start_sync` with no channel and no resume job: error, state untouched. -/
theorem startSync_noRefs (s : TaskManagerState) (jt tf : String)
    (h : s.active = false) :
    startSync s jt tf none none = (s, Except.error "channel_id is required") := by
  simp [startSync, h]

/-- `start_sync` for an unknown channel: error after the cancel-flag reset. -/
theorem startSync_noChannel (s : TaskManagerState) (jt tf : String) (c : Nat)
    (ha : s.active = false) (hc : c ∉ s.db.channels) :
    startSync s jt tf (some c) none =
      ({ s with cancelRequested := false }, Except.error "Channel not found") := by
  simp [startSync, ha, hc]

/-- `start_sync` for an existing channel on an idle manager: a fresh `running`
job row is inserted and the task slot becomes active. -/
theorem startSync_fresh (s : TaskManagerState) (jt tf : String) (c : Nat)
    (ha : s.active = false) (hc : c ∈ s.db.channels) :
    startSync s jt tf (some c) none =
      ({ active := true,
         syncProgress :=
           { jobId := some s.db.nextJobId, status := .syncing,
             jobType := some jt, channelId := some c },
         cancelRequested := false,
         db :=
           { jobs := s.db.jobs ++
               [{ id := s.db.nextJobId, jobType := jt, timeFilter := tf,
                  channelId := some c, status := .running, totalItems := 0,
                  processedItems := 0, failedItems := 0, errorMessage := none,
                  resumeFrom := none }],
             errors := s.db.errors, channels := s.db.channels,
             nextJobId := s.db.nextJobId + 1 } },
       Except.ok s.db.nextJobId) := by
  simp [startSync, ha, hc]

/-- `stop_sync` on an idle manager is a no-op. -/
theorem stopSync_idle (s : TaskManagerState) (h : s.active = false) :
    stopSync s = s := by
  simp [stopSync, h]

/-- `stop_sync` on an active manager writes `cancelled` for the progress job,
resets the snapshot and tears the task down. -/
theorem stopSync_active (s : TaskManagerState) (jid : Nat)
    (ha : s.active = true) (hj : s.syncProgress.jobId = some jid) :
    stopSync s =
      { s with
        cancelRequested := true, db := setJobStatus s.db jid .cancelled,
        syncProgress := {}, active := false } := by
  simp [stopSync, ha, hj]

/-- A finished run on an idle manager does not happen (no task exists). -/
theorem finishRun_idle (s : TaskManagerState) (h : s.active = false) :
    finishRun s = s := by
  simp [finishRun, h]

/-- The completion write of an active run. -/
theorem finishRun_active (s : TaskManagerState) (jid : Nat)
    (ha : s.active = true) (hj : s.syncProgress.jobId = some jid) :
    finishRun s =
      { s with
        db := setJobStatus s.db jid .completed, syncProgress := {}, active := false } := by
  simp [finishRun, ha, hj]

/-- A failed run on an idle manager does not happen. -/
theorem failRun_idle (s : TaskManagerState) (msg : String) (h : s.active = false) :
    failRun s msg = s := by
  simp [failRun, h]

/-- The failure write of an active run. -/
theorem failRun_active (s : TaskManagerState) (msg : String) (jid : Nat)
    (ha : s.active = true) (hj : s.syncProgress.jobId = some jid) :
    failRun s msg =
      { s with
        db := setJobFailed s.db jid msg, syncProgress := {}, active := false } := by
  simp [failRun, ha, hj]

/-- On a state satisfying the invariant, the startup resume pass is a no-op:
while idle no job row is `running` (so nothing to resume), and while active
the inner `start_sync` fails its mutual-exclusion gate. -/
theorem checkAndResumeSync_eq_self (s : TaskManagerState) (h : TMInv s) :
    checkAndResumeSync s = s := by
  by_cases ha : s.active = true
  · unfold checkAndResumeSync
    cases hf : s.db.jobs.find? (fun j => decide (j.status = .running)) with
    | none => rfl
    | some ij =>
      cases hf2 : findJob s.db ij.id with
      | none => simp only [hf2]
      | some job =>
        by_cases hcs : job.channelId.isSome
        · simp only [hf2, hcs, if_true]
          rw [startSync_active s job.jobType job.timeFilter job.channelId (some ij.id) ha]
        · simp [hf2, hcs]
  · have ha' : s.active = false := by simpa using ha
    have hnone : s.db.jobs.find? (fun j => decide (j.status = .running)) = none := by
      rw [List.find?_eq_none]
      intro j hj
      simpa using h.2.2.2 ha' j hj
    unfold checkAndResumeSync
    rw [hnone]

/-- `start_sync` preserves the invariant. -/
theorem tminv_startSync (s : TaskManagerState) (jt tf : String) (cid : Option Nat)
    (h : TMInv s) : TMInv (startSync s jt tf cid none).1 := by
  by_cases ha : s.active = true
  · rw [startSync_active s jt tf cid none ha]
    exact h
  · have ha' : s.active = false := by simpa using ha
    cases cid with
    | none =>
      rw [startSync_noRefs s jt tf ha']
      exact h
    | some c =>
      by_cases hc : c ∈ s.db.channels
      · rw [startSync_fresh s jt tf c ha' hc]
        obtain ⟨hb, hn, _, hidle⟩ := h
        refine ⟨?_, ?_, ?_, ?_⟩
        · intro j hj
          rcases List.mem_append.mp hj with hj' | hj'
          · exact Nat.lt_succ_of_lt (hb j hj')
          · simp at hj'
            subst hj'
            exact Nat.lt_succ_self _
        · simp only [jobIds, List.map_append]
          rw [List.nodup_append]
          refine ⟨hn, by simp, ?_⟩
          intro x hx
          simp only [List.mem_map] at hx
          rcases hx with ⟨j, hj, rfl⟩
          simp only [List.map_cons, List.map_nil, List.mem_singleton]
          have := hb j hj
          omega
        · intro _
          refine ⟨s.db.nextJobId, rfl, Nat.lt_succ_self _, ?_, ?_⟩
          · intro j hj hid
            rcases List.mem_append.mp hj with hj' | hj'
            · have := hb j hj'
              omega
            · simp at hj'
              subst hj'
              rfl
          · intro j hj hr
            rcases List.mem_append.mp hj with hj' | hj'
            · exact absurd hr (hidle ha' j hj')
            · simp at hj'
              subst hj'
              rfl
        · intro habs
          cases habs
      · rw [startSync_noChannel s jt tf c ha' hc]
        exact h

/-- The completion write preserves the invariant. -/
theorem tminv_finishRun (s : TaskManagerState) (h : TMInv s) : TMInv (finishRun s) := by
  by_cases ha : s.active = true
  · obtain ⟨hb, hn, hact, _⟩ := h
    obtain ⟨jid, hjid, _, _, hback⟩ := hact ha
    rw [finishRun_active s jid ha hjid]
    obtain ⟨c1, c2, c3⟩ := db_after_mapJob s.db jid (fun j => { j with status := .completed })
      (fun _ => rfl) (fun _ => by simp) hb hn hback
    refine ⟨c1, c2, ?_, fun _ => c3⟩
    intro habs
    simp at habs
  · rw [finishRun_idle s (by simpa using ha)]
    exact h

/-- The cancellation write of `stop_sync` preserves the invariant. -/
theorem tminv_stopSync (s : TaskManagerState) (h : TMInv s) : TMInv (stopSync s) := by
  by_cases ha : s.active = true
  · obtain ⟨hb, hn, hact, _⟩ := h
    obtain ⟨jid, hjid, _, _, hback⟩ := hact ha
    rw [stopSync_active s jid ha hjid]
    obtain ⟨c1, c2, c3⟩ := db_after_mapJob s.db jid (fun j => { j with status := .cancelled })
      (fun _ => rfl) (fun _ => by simp) hb hn hback
    refine ⟨c1, c2, ?_, fun _ => c3⟩
    intro habs
    simp at habs
  · rw [stopSync_idle s (by simpa using ha)]
    exact h

/-- The failure write preserves the invariant. -/
theorem tminv_failRun (s : TaskManagerState) (msg : String) (h : TMInv s) :
    TMInv (failRun s msg) := by
  by_cases ha : s.active = true
  · obtain ⟨hb, hn, hact, _⟩ := h
    obtain ⟨jid, hjid, _, _, hback⟩ := hact ha
    rw [failRun_active s msg jid ha hjid]
    obtain ⟨c1, c2, c3⟩ := db_after_mapJob s.db jid
      (fun j => { j with status := .failed, errorMessage := some msg })
      (fun _ => rfl) (fun _ => by simp) hb hn hback
    refine ⟨c1, c2, ?_, fun _ => c3⟩
    intro habs
    simp at habs
  · rw [failRun_idle s msg (by simpa using ha)]
    exact h

/-- Every trace event preserves the invariant. -/
theorem tminv_step (s : TaskManagerState) (op : Op) (h : TMInv s) :
    TMInv (step s op) := by
  cases op with
  | start jt tf cid => exact tminv_startSync s jt tf cid h
  | resume =>
    show TMInv (checkAndResumeSync s)
    rw [checkAndResumeSync_eq_self s h]
    exact h
  | finish => exact tminv_finishRun s h
  | stop => exact tminv_stopSync s h
  | fail msg => exact tminv_failRun s msg h

/-- The invariant is inductive along any trace. -/
theorem tminv_runOpsFrom (s : TaskManagerState) (ops : List Op) (h : TMInv s) :
    TMInv (runOpsFrom s ops) := by
  induction ops generalizing s with
  | nil => exact h
  | cons op ops ih => exact ih (step s op) (tminv_step s op h)

/-- The initial state satisfies the invariant. -/
theorem tminv_initState (channels : List Nat) : TMInv (initState channels) := by
  refine ⟨?_, ?_, ?_, ?_⟩
  · intro j hj
    simp [initState] at hj
  · simp [initState, jobIds]
  · intro habs
    simp [initState] at habs
  · intro _ j hj
    simp [initState] at hj

/-- When every running row carries the distinguished id and ids are distinct,
at most one row is running. -/
theorem filter_running_length_le_one (l : List SyncJob) (jid : Nat)
    (hn : (l.map (fun j => j.id)).Nodup)
    (hall : ∀ j ∈ l, j.status = .running → j.id = jid) :
    (l.filter (fun j => decide (j.status = .running))).length ≤ 1 := by
  induction l with
  | nil => simp
  | cons a l ih =>
    rw [List.map_cons, List.nodup_cons] at hn
    by_cases hr : a.status = .running
    · have hla : l.filter (fun j => decide (j.status = .running)) = [] := by
        rw [List.eq_nil_iff_forall_not_mem]
        intro j hj
        rw [List.mem_filter] at hj
        have hjr : j.status = .running := by simpa using hj.2
        have hid : j.id = jid := hall j (List.mem_cons_of_mem a hj.1) hjr
        have haid : a.id = jid := hall a (List.mem_cons_self a l) hr
        apply hn.1
        rw [haid, ← hid]
        exact List.mem_map_of_mem (fun j => j.id) hj.1
      simp [List.filter_cons, hr, hla]
    · have h2 := ih hn.2 (fun j hj => hall j (List.mem_cons_of_mem a hj))
      simpa [List.filter_cons, hr] using h2

/-- Under the invariant at most one job row is in `running` status. -/
theorem runningJobs_le_one (s : TaskManagerState) (h : TMInv s) :
    (runningJobs s.db).length ≤ 1 := by
  obtain ⟨hb, hn, hact, hidle⟩ := h
  by_cases ha : s.active = true
  · obtain ⟨jid, _, _, _, hback⟩ := hact ha
    exact filter_running_length_le_one s.db.jobs jid hn hback
  · have ha' : s.active = false := by simpa using ha
    have hempty : runningJobs s.db = [] := by
      rw [runningJobs, List.eq_nil_iff_forall_not_mem]
      intro j hj
      rw [List.mem_filter] at hj
      exact hidle ha' j hj.1 (by simpa using hj.2)
    simp [hempty]

/-- C1: along every trace of operations from process start, at most one job
row is ever in `running` status, and a `start_sync` issued while a task is
active raises `AlreadyRunning` ("A sync is already in progress") without
creating a job record and without changing any state -- the already-running
job is left untouched. -/
theorem c1_single_flight (channels : List Nat) (ops : List Op) :
    (runningJobs (runOps channels ops).db).length ≤ 1 ∧
    (∀ (jt tf : String) (cid rid : Option Nat),
      (runOps channels ops).active = true →
      startSync (runOps channels ops) jt tf cid rid =
        (runOps channels ops, Except.error "A sync is already in progress")) := by
  refine ⟨runningJobs_le_one _ (tminv_runOpsFrom _ ops (tminv_initState channels)), ?_⟩
  intro jt tf cid rid ha
  exact startSync_active _ jt tf cid rid ha

/-- C1 witness: after one successful start (channel 1 exists) the manager is
active, exactly one job is running, and a second start is rejected with the
state unchanged. -/
theorem c1_single_flight_witness :
    (runningJobs (runOps [1] [Op.start "full" "all" (some 1)]).db).length ≤ 1 ∧
    startSync (runOps [1] [Op.start "full" "all" (some 1)]) "new_only" "week"
        (some 1) none =
      (runOps [1] [Op.start "full" "all" (some 1)],
        Except.error "A sync is already in progress") := by
  obtain ⟨h1, h2⟩ := c1_single_flight [1] [Op.start "full" "all" (some 1)]
  exact ⟨h1, h2 "new_only" "week" (some 1) none (by decide)⟩

/-- An update aimed at a different id leaves the cancelled rows cancelled. -/
theorem cs_after_mapJob_ne (db : DB) (target jid : Nat) (f : SyncJob → SyncJob)
    (hfid : ∀ j, (f j).id = j.id) (hne : target ≠ jid)
    (hc : ∀ j ∈ db.jobs, j.id = jid → j.status = .cancelled) :
    ∀ j ∈ (mapJob db target f).jobs, j.id = jid → j.status = .cancelled := by
  intro j hj hid
  rcases mem_mapJob.mp hj with ⟨j0, hj0, rfl⟩
  by_cases h : j0.id = target
  · rw [if_pos h] at hid ⊢
    rw [hfid j0] at hid
    exfalso
    apply hne
    rw [← h, hid]
  · rw [if_neg h] at hid ⊢
    exact hc j0 hj0 hid

/-- Every trace event preserves the persistence of a cancelled job: no event
ever moves a row with the distinguished id out of `cancelled`. -/
theorem cs_step (jid : Nat) (s : TaskManagerState) (op : Op)
    (hI : TMInv s) (hC : CancelledStays jid s) : CancelledStays jid (step s op) := by
  obtain ⟨hlt, hrows, hprog⟩ := hC
  cases op with
  | start jt tf cid =>
    show CancelledStays jid (startSync s jt tf cid none).1
    by_cases ha : s.active = true
    · rw [startSync_active s jt tf cid none ha]
      exact ⟨hlt, hrows, hprog⟩
    · have ha' : s.active = false := by simpa using ha
      cases cid with
      | none =>
        rw [startSync_noRefs s jt tf ha']
        exact ⟨hlt, hrows, hprog⟩
      | some c =>
        by_cases hch : c ∈ s.db.channels
        · rw [startSync_fresh s jt tf c ha' hch]
          refine ⟨Nat.lt_succ_of_lt hlt, ?_, ?_⟩
          · intro j hj hid
            rcases List.mem_append.mp hj with h | h
            · exact hrows j h hid
            · simp only [List.mem_singleton] at h
              subst h
              simp only [] at hid
              omega
          · intro _ heq
            simp only [SyncProgress.mk.injEq, Option.some.injEq] at heq
            omega
        · rw [startSync_noChannel s jt tf c ha' hch]
          exact ⟨hlt, hrows, hprog⟩
  | resume =>
    show CancelledStays jid (checkAndResumeSync s)
    rw [checkAndResumeSync_eq_self s hI]
    exact ⟨hlt, hrows, hprog⟩
  | finish =>
    show CancelledStays jid (finishRun s)
    by_cases ha : s.active = true
    · obtain ⟨jid0, hjid0, _, _, _⟩ := hI.2.2.1 ha
      rw [finishRun_active s jid0 ha hjid0]
      have hne : jid0 ≠ jid := by
        intro hcon
        exact (hprog ha) (by rw [hjid0, hcon])
      refine ⟨hlt, cs_after_mapJob_ne s.db jid0 jid _ (fun _ => rfl) hne hrows, ?_⟩
      intro habs
      simp at habs
    · rw [finishRun_idle s (by simpa using ha)]
      exact ⟨hlt, hrows, hprog⟩
  | stop =>
    show CancelledStays jid (stopSync s)
    by_cases ha : s.active = true
    · obtain ⟨jid0, hjid0, _, _, _⟩ := hI.2.2.1 ha
      rw [stopSync_active s jid0 ha hjid0]
      have hne : jid0 ≠ jid := by
        intro hcon
        exact (hprog ha) (by rw [hjid0, hcon])
      refine ⟨hlt, cs_after_mapJob_ne s.db jid0 jid _ (fun _ => rfl) hne hrows, ?_⟩
      intro habs
      simp at habs
    · rw [stopSync_idle s (by simpa using ha)]
      exact ⟨hlt, hrows, hprog⟩
  | fail msg =>
    show CancelledStays jid (failRun s msg)
    by_cases ha : s.active = true
    · obtain ⟨jid0, hjid0, _, _, _⟩ := hI.2.2.1 ha
      rw [failRun_active s msg jid0 ha hjid0]
      have hne : jid0 ≠ jid := by
        intro hcon
        exact (hprog ha) (by rw [hjid0, hcon])
      refine ⟨hlt, cs_after_mapJob_ne s.db jid0 jid _ (fun _ => rfl) hne hrows, ?_⟩
      intro habs
      simp at habs
    · rw [failRun_idle s msg (by simpa using ha)]
      exact ⟨hlt, hrows, hprog⟩

/-- A cancelled job stays cancelled along any continuation of the trace. -/
theorem cs_runOpsFrom (jid : Nat) (s : TaskManagerState) (ops : List Op)
    (hI : TMInv s) (hC : CancelledStays jid s) :
    CancelledStays jid (runOpsFrom s ops) := by
  induction ops generalizing s with
  | nil => exact hC
  | cons op ops ih => exact ih (step s op) (tminv_step s op hI) (cs_step jid s op hI hC)

/-- C2: `stop_sync` on an idle orchestrator is a no-op; requesting
cancellation of a running job persists terminal status `cancelled` for it,
and that status is never overwritten -- in particular never by `completed` --
by any continuation of the trace (the cancelled task performs no further
write, see the cancellation note in the header); and once the per-item loop
observes the cancellation request no new item begins processing: every index
that began processing saw the flag false at its own boundary and every
earlier one. -/
theorem c2_cancel_semantics :
    (∀ s : TaskManagerState, s.active = false → stopSync s = s) ∧
    (∀ (channels : List Nat) (ops : List Op) (jid : Nat),
      (runOps channels ops).active = true →
      (runOps channels ops).syncProgress.jobId = some jid →
      ∀ (ops2 : List Op) (j : SyncJob),
        j ∈ (runOpsFrom (stopSync (runOps channels ops)) ops2).db.jobs →
        j.id = jid → j.status = .cancelled) ∧
    (∀ (env : RunEnv) (job : SyncJob) (pages : List (List VideoData))
        (dl : List String),
      ∀ x ∈ (runSync env job pages dl).began,
        ∀ k, k ≤ x → env.itemCancel k = false) := by
  refine ⟨fun s h => stopSync_idle s h, ?_, runSync_began_not_cancelled⟩
  intro channels ops jid ha hjid ops2 j hj hid
  have hI : TMInv (runOps channels ops) :=
    tminv_runOpsFrom _ ops (tminv_initState channels)
  have hI' : TMInv (stopSync (runOps channels ops)) :=
    tminv_stopSync _ hI
  obtain ⟨jid0, hjid0, hlt0, _, _⟩ := hI.2.2.1 ha
  have hjideq : jid0 = jid := by
    rw [hjid] at hjid0
    injection hjid0 with h
    exact h.symm
  subst hjideq
  have hC : CancelledStays jid0 (stopSync (runOps channels ops)) := by
    rw [stopSync_active _ jid0 ha hjid]
    refine ⟨hlt0, ?_, ?_⟩
    · intro j' hj' hid'
      rcases mem_mapJob.mp hj' with ⟨j0, hj0, rfl⟩
      by_cases h : j0.id = jid0
      · rw [if_pos h]
      · rw [if_neg h] at hid'
        exact absurd hid' h
    · intro habs
      simp at habs
  exact (cs_runOpsFrom jid0 _ ops2 hI' hC).2.1 j hj hid

/-- C2 witness: stopping the idle initial state changes nothing; after a
start followed by a stop and then a spurious finish event, the job row with
id 1 is still `cancelled`; and in a loop cancelled before item 2, item 1
began while the flag was still false at boundaries 0 and 1. -/
theorem c2_cancel_semantics_witness :
    stopSync (initState [1]) = initState [1] ∧
    ({ id := 1, jobType := "full", timeFilter := "all", channelId := some 1,
       status := .cancelled, totalItems := 0, processedItems := 0,
       failedItems := 0, errorMessage := none,
       resumeFrom := none } : SyncJob).status = JobStatus.cancelled ∧
    ({ noCancelEnv with
       itemCancel := fun i => decide (2 ≤ i) } : RunEnv).itemCancel 0 = false := by
  obtain ⟨h1, h2, h3⟩ := c2_cancel_semantics
  refine ⟨h1 (initState [1]) (by decide), ?_, ?_⟩
  · exact h2 [1] [Op.start "full" "all" (some 1)] 1 (by decide) (by decide)
      [Op.finish]
      { id := 1, jobType := "full", timeFilter := "all", channelId := some 1,
        status := .cancelled, totalItems := 0, processedItems := 0,
        failedItems := 0, errorMessage := none, resumeFrom := none }
      (by decide) (by decide)
  · exact h3 { noCancelEnv with itemCancel := fun i => decide (2 ≤ i) }
      c4Job crashPages [] 1 (by decide) 0 (by decide)
